import Mathlib

/-
Shallow embedding of `src/py/dml/slotsmeta.py`: the metaclass `SlotsMeta`
(automatic `__slots__` assignment derived from `__init__` argument lists)
and the decorator `auto_init` (auto-generated constructor bodies).

Modelling conventions:
* `inspect.getfullargspec` results are the record `FullArgSpec`; Python's
  `None` for `varargs`/`varkw`/`kwonlydefaults` is `Option.none`, the empty
  defaults tuple / `None` is the empty list, the empty annotation dict is
  the empty association list.
* A Python assertion failure (and the `IndexError` raised by `bases[0]` on
  an empty base list) aborts class creation, so the class-creation hook
  `SlotsMeta.__new__` is the fallible function `SlotsMetaNew` returning
  `Except String NewClass`.
* A base class is summarised by the attributes `__new__` reads from it:
  its name, whether its metaclass is `SlotsMeta` (`isinstance(b, SlotsMeta)`),
  its `init_args` attribute, and its method-resolution order, each MRO entry
  reduced to the class name and the identity of its `__init__` function
  (a numeric token standing for object identity, as compared by
  `c.__init__ in all_inits`).
* The class body dictionary `dct` is summarised by the keys `__new__` reads:
  whether `'__slots__'` is present, the `'__init__'` entry (a plain function
  or an `auto_init` trampoline), and the `'slots'` attribute (default `()`).
* The trampoline generated by `auto_init` carries `auto_init_args` and,
  once its class is created, the attribute `cls` (modelled by the created
  class's name). Its runtime behaviour on an instance is modelled by
  `runTrampoline`, which returns the ordered trace of its observable
  effects (the superclass `__init__` call, the `setattr` assignments, and
  the final call of the wrapped initializer body). The attribute lookups
  `super(cls, self).init_args` and `self.init_args` are passed in as the
  parameters `supInitArgs` and `selfInitArgs`.
-/

namespace SlotsMetaModel

/-- Result of `inspect.getfullargspec` on an initializer function. -/
structure FullArgSpec where
  args : List String
  varargs : Option String
  varkw : Option String
  defaults : List String
  kwonlyargs : List String
  kwonlydefaults : Option (List (String × String))
  annotations : List (String × String)
deriving DecidableEq, Repr

/-- The wrapper function produced by `auto_init`: it carries the wrapped
function's positional argument names as `auto_init_args`, and after the
owning class has been created through `SlotsMeta`, that class as `cls`
(modelled by the class name; `none` while unset). -/
structure Trampoline where
  auto_init_args : List String
  cls : Option String
deriving DecidableEq, Repr

/-- The `'__init__'` entry of a class body: either a plain function with its
introspectable signature, or a trampoline generated by `auto_init`. -/
inductive InitEntry where
  | plain (spec : FullArgSpec)
  | trampoline (t : Trampoline)
deriving DecidableEq, Repr

/-- A base class as seen by `SlotsMeta.__new__`: `isSlotsMeta` is
`isinstance(b, SlotsMeta)`, `init_args` its `init_args` attribute (every
class whose metaclass is `SlotsMeta` has one), and `mro` its
method-resolution order, each entry reduced to the class name and a token
for the identity of that class's `__init__` function. -/
structure BaseClass where
  name : String
  isSlotsMeta : Bool
  init_args : List String
  mro : List (String × Nat)
deriving DecidableEq, Repr

/-- The class body dictionary, reduced to the keys `SlotsMeta.__new__`
reads: presence of `'__slots__'`, the `'__init__'` entry if any, and the
`'slots'` attribute (`dct.get('slots', ())`, modelled with default `[]`). -/
structure ClassDict where
  hasDunderSlots : Bool
  init : Option InitEntry
  slots : List String
deriving DecidableEq, Repr

/-- The class produced by `SlotsMeta.__new__`: its name, its `init_args`
attribute (set from the body's `__init__`, or inherited from the first
base), its computed `__slots__` (as a list), and, when the `__init__` was
an `auto_init` trampoline, that trampoline after `init.cls = new_class`. -/
structure NewClass where
  name : String
  init_args : List String
  dunderSlots : List String
  trampoline : Option Trampoline
deriving DecidableEq, Repr

/-- `inspect.getfullargspec` applied to the trampoline itself: the
trampoline is defined as `def __init(*args, **kwargs)`, so introspection
sees no positional names and both variadic parameters. -/
def trampolineArgSpec : FullArgSpec :=
  { args := [], varargs := some "args", varkw := some "kwargs",
    defaults := [], kwonlyargs := [], kwonlydefaults := none,
    annotations := [] }

/-- `inspect.getfullargspec(init)` for a class body's `__init__` entry. -/
def getfullargspec : InitEntry → FullArgSpec
  | InitEntry.plain s => s
  | InitEntry.trampoline _ => trampolineArgSpec

/-- `getattr(init, 'auto_init_args', None)`, with Python's falsy `None`
and the falsy empty list both modelled by `[]`. -/
def autoInitArgsAttr : InitEntry → List String
  | InitEntry.plain _ => []
  | InitEntry.trampoline t => t.auto_init_args

/-- The full positional argument-name list of a class body's `__init__`:
the introspected `args` of a plain function, or the wrapped function's
argument names carried by a trampoline. -/
def entryInitArgs : InitEntry → List String
  | InitEntry.plain s => s.args
  | InitEntry.trampoline t => t.auto_init_args

/-- `bases[0].init_args if bases and isinstance(bases[0], SlotsMeta) else
['self']` (lines 42-44). -/
def parentInitArgs : List BaseClass → List String
  | b0 :: _ => if b0.isSlotsMeta then b0.init_args else ["self"]
  | [] => ["self"]

/-- The multiple-inheritance linearity check of lines 31-38: when there is
more than one base, collect the identities of `__init__` of every class in
the first base's MRO, and find the first class in a later base's MRO whose
`__init__` is not among them (the class the failing assertion names).
Returns `none` when the check passes or there is at most one base. -/
def firstOffender : List BaseClass → Option (String × Nat)
  | b0 :: b1 :: rest =>
      ((b1 :: rest).flatMap BaseClass.mro).find?
        (fun c => decide (c.2 ∉ b0.mro.map Prod.snd))
  | _ => none

/-- `SlotsMeta.patch_dict` (lines 23-28): record `init_args`, assert that
the parent's `init_args` is a prefix of it, and compute `__slots__` as the
new argument names followed by the body's `slots` attribute. Returns the
pair (`init_args`, `__slots__`) written into the dictionary. -/
def patch_dict (dct : ClassDict) (init_args parent_init_args : List String) :
    Except String (List String × List String) :=
  if init_args.take parent_init_args.length = parent_init_args then
    Except.ok (init_args, init_args.drop parent_init_args.length ++ dct.slots)
  else Except.error "AssertionError: parent init_args is not a prefix of init_args"

/-- `SlotsMeta.__new__` (lines 30-66). -/
def SlotsMetaNew (clsname : String) (bases : List BaseClass) (dct : ClassDict) :
    Except String NewClass :=
  match firstOffender bases with
  | some c => Except.error ("AssertionError: " ++ c.1)
  | none =>
    if dct.hasDunderSlots then
      Except.error "AssertionError: set slots instead of dunder slots"
    else
      match dct.init with
      | some ie =>
        if autoInitArgsAttr ie ≠ [] then
          match bases with
          | b0 :: _ =>
            if b0.isSlotsMeta then
              match patch_dict dct (autoInitArgsAttr ie) (parentInitArgs bases) with
              | Except.ok (ia, sl) =>
                Except.ok { name := clsname, init_args := ia, dunderSlots := sl,
                            trampoline := some { auto_init_args := autoInitArgsAttr ie,
                                                 cls := some clsname } }
              | Except.error e => Except.error e
            else Except.error "AssertionError: auto_init does not work on base class"
          | [] => Except.error "AssertionError: auto_init does not work on base class"
        else
          if (getfullargspec ie).varargs = none ∧ (getfullargspec ie).varkw = none
              ∧ (getfullargspec ie).kwonlydefaults = none
              ∧ (getfullargspec ie).kwonlyargs = []
              ∧ (getfullargspec ie).annotations = [] then
            match patch_dict dct (getfullargspec ie).args (parentInitArgs bases) with
            | Except.ok (ia, sl) =>
              Except.ok { name := clsname, init_args := ia, dunderSlots := sl,
                          trampoline := none }
            | Except.error e => Except.error e
          else Except.error "AssertionError: variadic or keyword-only parameters or annotations"
      | none =>
        match bases with
        | b0 :: _ =>
          if b0.isSlotsMeta then
            Except.ok { name := clsname, init_args := b0.init_args,
                        dunderSlots := dct.slots, trampoline := none }
          else Except.error "AssertionError: bases[0] is not a SlotsMeta instance"
        | [] => Except.error "IndexError: bases is empty"

/-- `auto_init` (lines 68-91), up to the construction of the trampoline:
introspect the wrapped function, assert the signature shape (no variadic
parameters, no defaults, no keyword-only parameters, no annotations), and
return the trampoline carrying the argument names as `auto_init_args`
(its `cls` attribute not yet set). -/
def auto_init (f : FullArgSpec) : Except String Trampoline :=
  if f.varargs = none ∧ f.varkw = none ∧ f.kwonlydefaults = none then
    if f.defaults = [] then
      if f.kwonlyargs = [] then
        if f.annotations = [] then
          Except.ok { auto_init_args := f.args, cls := none }
        else Except.error "AssertionError: annotations present"
      else Except.error "AssertionError: keyword-only parameters present"
    else Except.error "AssertionError: defaults present"
  else Except.error "AssertionError: variadic parameters or kwonlydefaults present"

/-- An observable effect of a trampoline invocation, in order: the
superclass `__init__` call with its positional arguments, a `setattr` on
the instance, and the final call of the wrapped initializer body with the
positional and keyword arguments of the invocation. -/
inductive Event (V : Type) where
  | superInit (posArgs : List V)
  | setattr (name : String) (val : V)
  | callBody (posArgs : List V) (kwargs : List (String × V))
deriving DecidableEq, Repr

/-- The body `__init` of the trampoline (lines 76-89), invoked with
positional arguments `args` (so `args[0]` is the instance) and keyword
arguments `kwargs`, returning the ordered trace of its effects. The
assertion `hasattr(__init, 'cls')` is the check `t.cls ≠ none`; `self =
args[0]` raises `IndexError` on an empty `args`; `supInitArgs` is
`super(cls, self).init_args` and `selfInitArgs` is `self.init_args`.
`args[1:super_nargs]` is `(args.drop 1).take (supInitArgs.length - 1)`. -/
def runTrampoline {V : Type} (t : Trampoline) (supInitArgs selfInitArgs : List String)
    (args : List V) (kwargs : List (String × V)) : Except String (List (Event V)) :=
  match t.cls with
  | none => Except.error "AssertionError: auto_init only allowed in SlotsMeta classes"
  | some _ =>
    match args with
    | [] => Except.error "IndexError: args is empty"
    | _ :: _ =>
      Except.ok
        ([Event.superInit ((args.drop 1).take (supInitArgs.length - 1))]
         ++ ((selfInitArgs.drop supInitArgs.length).zip
              (args.drop supInitArgs.length)).map (fun p => Event.setattr p.1 p.2)
         ++ kwargs.map (fun p => Event.setattr p.1 p.2)
         ++ [Event.callBody args kwargs])

/-- `Except.isOk`, for stating that class creation fails. -/
def isOk {α : Type} : Except String α → Bool
  | Except.ok _ => true
  | Except.error _ => false

/-- Inversion for `patch_dict`: a successful patch records exactly the given
`init_args`, the parent list is a prefix, and `__slots__` is the remainder
followed by the declared `slots`. -/
theorem patch_dict_ok_inv {dct : ClassDict} {ia pia ra rs : List String}
    (h : patch_dict dct ia pia = Except.ok (ra, rs)) :
    ra = ia ∧ ia.take pia.length = pia ∧ rs = ia.drop pia.length ++ dct.slots := by
  unfold patch_dict at h
  split at h
  next hpre =>
    simp only [Except.ok.injEq, Prod.mk.injEq] at h
    exact ⟨h.1.symm, hpre, h.2.symm⟩
  next => simp at h

/-- Inversion for `SlotsMetaNew` on a class body that defines `__init__`:
a successfully created class is named `clsname`, records the full argument
list of its `__init__` as `init_args`, of which the parent's `init_args` is
a prefix, computes `__slots__` as the remaining argument names followed by
the declared `slots`, and carries the patched trampoline exactly when the
`__init__` was an `auto_init` trampoline. -/
theorem SlotsMetaNew_ok_inv
    {clsname : String} {bases : List BaseClass} {dct : ClassDict}
    {e : InitEntry} {nc : NewClass}
    (hinit : dct.init = some e)
    (hok : SlotsMetaNew clsname bases dct = Except.ok nc) :
    nc.name = clsname ∧
    nc.init_args = entryInitArgs e ∧
    nc.init_args.take (parentInitArgs bases).length = parentInitArgs bases ∧
    nc.dunderSlots = (entryInitArgs e).drop (parentInitArgs bases).length ++ dct.slots ∧
    nc.trampoline = (match e with
                     | InitEntry.plain _ => none
                     | InitEntry.trampoline t =>
                         some { auto_init_args := t.auto_init_args,
                                cls := some clsname }) := by
  unfold SlotsMetaNew at hok
  split at hok
  · exact absurd hok (by simp)
  split at hok
  · exact absurd hok (by simp)
  split at hok
  case _ ie heq =>
    rw [hinit] at heq
    injection heq with heq
    subst heq
    split at hok
    case _ hne =>
      -- the auto_init path: `e` must be a trampoline with nonempty args
      cases e with
      | plain s => simp [autoInitArgsAttr] at hne
      | trampoline t =>
        split at hok
        case _ b0 rest =>
          split at hok
          case _ hb0 =>
            split at hok
            case _ ia sl hpatch =>
              obtain ⟨hra, hpre, hrs⟩ := patch_dict_ok_inv hpatch
              simp only [Except.ok.injEq] at hok
              subst hok hra hrs
              simp [entryInitArgs, autoInitArgsAttr] at hpre ⊢
              exact hpre
            case _ => exact absurd hok (by simp)
          case _ => exact absurd hok (by simp)
        case _ => exact absurd hok (by simp)
    case _ hne =>
      -- the introspection path
      split at hok
      case _ hshape =>
        split at hok
        case _ ia sl hpatch =>
          obtain ⟨hra, hpre, hrs⟩ := patch_dict_ok_inv hpatch
          simp only [Except.ok.injEq] at hok
          subst hok hra hrs
          cases e with
          | plain s =>
            simp [entryInitArgs, getfullargspec] at hpre ⊢
            exact hpre
          | trampoline t =>
            -- introspecting the trampoline itself fails the shape assertion
            simp [getfullargspec, trampolineArgSpec] at hshape
        case _ => exact absurd hok (by simp)
      case _ => exact absurd hok (by simp)
  case _ heq => rw [hinit] at heq; exact absurd heq (by simp)

/-- When the parent `init_args` is not a prefix of the body `__init__`'s
argument list, class creation never succeeds (the `patch_dict` assertion,
or an earlier one, fires). -/
theorem SlotsMetaNew_not_ok_of_bad_prefix
    {clsname : String} {bases : List BaseClass} {dct : ClassDict} {e : InitEntry}
    (hinit : dct.init = some e)
    (hbad : (entryInitArgs e).take (parentInitArgs bases).length ≠ parentInitArgs bases) :
    isOk (SlotsMetaNew clsname bases dct) = false := by
  cases hok : SlotsMetaNew clsname bases dct with
  | error _ => rfl
  | ok nc =>
    obtain ⟨-, hia, hpre, -, -⟩ := SlotsMetaNew_ok_inv hinit hok
    rw [hia] at hpre
    exact absurd hpre hbad

/-- When a plain `__init__`'s introspected signature fails the shape
assertions of lines 59-61, class creation never succeeds. -/
theorem SlotsMetaNew_not_ok_of_bad_shape
    {clsname : String} {bases : List BaseClass} {dct : ClassDict} {s : FullArgSpec}
    (hinit : dct.init = some (InitEntry.plain s))
    (hbad : ¬ (s.varargs = none ∧ s.varkw = none ∧ s.kwonlydefaults = none ∧
               s.kwonlyargs = [] ∧ s.annotations = [])) :
    isOk (SlotsMetaNew clsname bases dct) = false := by
  unfold SlotsMetaNew
  split
  · rfl
  split
  · rfl
  split
  case _ ie heq =>
    rw [hinit] at heq
    injection heq with heq
    subst heq
    split
    case _ hne => simp [autoInitArgsAttr] at hne
    case _ hne =>
      split
      case _ hshape =>
        simp only [getfullargspec] at hshape
        exact absurd hshape hbad
      case _ => rfl
  case _ heq => rw [hinit] at heq; exact absurd heq (by simp)

/-- Inversion for `auto_init`: success returns the trampoline carrying the
wrapped function's argument names, with `cls` unset, and certifies the
signature-shape assertions. -/
theorem auto_init_ok_inv {f : FullArgSpec} {t : Trampoline}
    (h : auto_init f = Except.ok t) :
    t = { auto_init_args := f.args, cls := none } ∧
    f.varargs = none ∧ f.varkw = none ∧ f.kwonlydefaults = none ∧
    f.defaults = [] ∧ f.kwonlyargs = [] ∧ f.annotations = [] := by
  unfold auto_init at h
  split at h
  case _ hc =>
    split at h
    case _ hd =>
      split at h
      case _ hk =>
        split at h
        case _ han =>
          simp only [Except.ok.injEq] at h
          exact ⟨h.symm, hc.1, hc.2.1, hc.2.2, hd, hk, han⟩
        case _ => simp at h
      case _ => simp at h
    case _ => simp at h
  case _ => simp at h

/-- Inversion for `runTrampoline`: a successful invocation produces the
superclass call, the positional assignments, the keyword assignments and
the body call, in that order. -/
theorem runTrampoline_ok_inv {V : Type} {t : Trampoline}
    {supInitArgs selfInitArgs : List String} {args : List V}
    {kwargs : List (String × V)} {tr : List (Event V)}
    (h : runTrampoline t supInitArgs selfInitArgs args kwargs = Except.ok tr) :
    tr = [Event.superInit ((args.drop 1).take (supInitArgs.length - 1))]
         ++ ((selfInitArgs.drop supInitArgs.length).zip
              (args.drop supInitArgs.length)).map (fun p => Event.setattr p.1 p.2)
         ++ kwargs.map (fun p => Event.setattr p.1 p.2)
         ++ [Event.callBody args kwargs] := by
  unfold runTrampoline at h
  split at h
  · simp at h
  · split at h
    · simp at h
    · simp only [Except.ok.injEq] at h
      exact h.symm

/-- C1: For every class created through `SlotsMeta` whose body defines
`__init__`, the class's `__slots__` is the tuple of `__init__` positional
argument names that come after the parent class's `init_args`, concatenated
with the names given in the class's `slots` attribute (empty if absent);
and, the argument list having no duplicate names (as Python guarantees for
any function signature), no argument name shared with the parent becomes a
new slot. -/
theorem slots_are_new_init_args_plus_declared
    (clsname : String) (bases : List BaseClass) (dct : ClassDict)
    (e : InitEntry) (nc : NewClass)
    (hinit : dct.init = some e)
    (hok : SlotsMetaNew clsname bases dct = Except.ok nc) :
    nc.dunderSlots = (entryInitArgs e).drop (parentInitArgs bases).length ++ dct.slots ∧
    ((entryInitArgs e).Nodup →
      ∀ a ∈ parentInitArgs bases,
        a ∉ (entryInitArgs e).drop (parentInitArgs bases).length) := by
  obtain ⟨-, hia, hpre, hslots, -⟩ := SlotsMetaNew_ok_inv hinit hok
  rw [hia] at hpre
  refine ⟨hslots, fun hnd a ha hmem => ?_⟩
  have htake : a ∈ (entryInitArgs e).take (parentInitArgs bases).length := by
    rw [hpre]; exact ha
  exact List.disjoint_take_drop hnd le_rfl htake hmem

/-- C1 witness: concrete class `C(Root)` with `__init__(self, x, y)` and
`slots = ('extra',)`. -/
theorem slots_are_new_init_args_plus_declared_witness :
    (⟨"C", ["self", "x", "y"], ["x", "y", "extra"], none⟩ : NewClass).dunderSlots
      = (entryInitArgs (InitEntry.plain
            ⟨["self", "x", "y"], none, none, [], [], none, []⟩)).drop
          (parentInitArgs [⟨"Root", true, ["self"], [("Root", 0)]⟩]).length
        ++ (⟨false,
             some (InitEntry.plain ⟨["self", "x", "y"], none, none, [], [], none, []⟩),
             ["extra"]⟩ : ClassDict).slots ∧
    ((entryInitArgs (InitEntry.plain
          ⟨["self", "x", "y"], none, none, [], [], none, []⟩)).Nodup →
      ∀ a ∈ parentInitArgs [⟨"Root", true, ["self"], [("Root", 0)]⟩],
        a ∉ (entryInitArgs (InitEntry.plain
              ⟨["self", "x", "y"], none, none, [], [], none, []⟩)).drop
            (parentInitArgs [⟨"Root", true, ["self"], [("Root", 0)]⟩]).length) :=
  slots_are_new_init_args_plus_declared "C" [⟨"Root", true, ["self"], [("Root", 0)]⟩]
    ⟨false, some (InitEntry.plain ⟨["self", "x", "y"], none, none, [], [], none, []⟩),
     ["extra"]⟩
    (InitEntry.plain ⟨["self", "x", "y"], none, none, [], [], none, []⟩)
    ⟨"C", ["self", "x", "y"], ["x", "y", "extra"], none⟩ rfl rfl

/-- C6: Every class created through `SlotsMeta` whose body defines
`__init__` gains an `init_args` attribute equal to the full positional
argument-name list of that `__init__` (the introspected list of a plain
function — which starts with `self` — or the wrapped function's list
carried by an `auto_init` trampoline). -/
theorem init_args_records_full_arglist
    (clsname : String) (bases : List BaseClass) (dct : ClassDict)
    (e : InitEntry) (nc : NewClass)
    (hinit : dct.init = some e)
    (hok : SlotsMetaNew clsname bases dct = Except.ok nc) :
    nc.init_args = entryInitArgs e :=
  (SlotsMetaNew_ok_inv hinit hok).2.1

/-- C6 witness: concrete class `C(Root)` whose `__init__` is an `auto_init`
trampoline for `__init__(self, a)`. -/
theorem init_args_records_full_arglist_witness :
    (⟨"C", ["self", "a"], ["a"], some ⟨["self", "a"], some "C"⟩⟩ : NewClass).init_args
      = entryInitArgs (InitEntry.trampoline ⟨["self", "a"], none⟩) :=
  init_args_records_full_arglist "C" [⟨"Root", true, ["self"], [("Root", 0)]⟩]
    ⟨false, some (InitEntry.trampoline ⟨["self", "a"], none⟩), []⟩
    (InitEntry.trampoline ⟨["self", "a"], none⟩)
    ⟨"C", ["self", "a"], ["a"], some ⟨["self", "a"], some "C"⟩⟩ rfl rfl

/-- C8: For every class created through `SlotsMeta` that defines
`__init__`, its `init_args` has the first base's `init_args` as a prefix
(a first base that is not a `SlotsMeta` instance counts as `['self']`, as
does an empty base list); class creation asserts this, so an argument list
that drops, renames or reorders the parent's parameters is rejected at
class-definition time. -/
theorem parent_init_args_prefix_invariant
    (clsname : String) (bases : List BaseClass) (dct : ClassDict) (e : InitEntry)
    (hinit : dct.init = some e) :
    (∀ nc : NewClass, SlotsMetaNew clsname bases dct = Except.ok nc →
       nc.init_args.take (parentInitArgs bases).length = parentInitArgs bases) ∧
    ((entryInitArgs e).take (parentInitArgs bases).length ≠ parentInitArgs bases →
       isOk (SlotsMetaNew clsname bases dct) = false) :=
  ⟨fun _ hok => (SlotsMetaNew_ok_inv hinit hok).2.2.1,
   fun hbad => SlotsMetaNew_not_ok_of_bad_prefix hinit hbad⟩

/-- C8 witness: `__init__(self, y)` under a parent whose `init_args` is
`['self', 'x']` renames the parent's parameter and is rejected. -/
theorem parent_init_args_prefix_invariant_witness :
    isOk (SlotsMetaNew "C" [⟨"P", true, ["self", "x"], [("P", 0)]⟩]
      ⟨false, some (InitEntry.plain ⟨["self", "y"], none, none, [], [], none, []⟩),
       []⟩) = false :=
  (parent_init_args_prefix_invariant "C" [⟨"P", true, ["self", "x"], [("P", 0)]⟩]
    ⟨false, some (InitEntry.plain ⟨["self", "y"], none, none, [], [], none, []⟩), []⟩
    (InitEntry.plain ⟨["self", "y"], none, none, [], [], none, []⟩) rfl).2 (by decide)

/-- C9: Placing `'__slots__'` directly in the body of any class created
through `SlotsMeta` always fails with an assertion at class-definition
time. -/
theorem dunder_slots_in_body_rejected
    (clsname : String) (bases : List BaseClass) (dct : ClassDict)
    (h : dct.hasDunderSlots = true) :
    isOk (SlotsMetaNew clsname bases dct) = false := by
  unfold SlotsMetaNew
  split
  · rfl
  · rw [h]
    simp [isOk]

/-- C9 witness: a body carrying `'__slots__'` is rejected. -/
theorem dunder_slots_in_body_rejected_witness :
    isOk (SlotsMetaNew "C" [⟨"Root", true, ["self"], [("Root", 0)]⟩]
      ⟨true, none, []⟩) = false :=
  dunder_slots_in_body_rejected "C" [⟨"Root", true, ["self"], [("Root", 0)]⟩]
    ⟨true, none, []⟩ rfl

/-- C2: An invocation of the `auto_init` trampoline first forwards to
superclass initialization with exactly the positional arguments
corresponding to the superclass's `init_args` (`args[1:super_nargs]`),
then assigns each remaining positional argument to the attribute named by
the corresponding later entry of `init_args`, and the user-written
initializer body runs only after those assignments, as the last effect. -/
theorem trampoline_forwarding_order
    {V : Type} (t : Trampoline) (supInitArgs selfInitArgs : List String)
    (args : List V) (kwargs : List (String × V)) (tr : List (Event V))
    (hok : runTrampoline t supInitArgs selfInitArgs args kwargs = Except.ok tr) :
    tr.head? = some (Event.superInit ((args.drop 1).take (supInitArgs.length - 1))) ∧
    (tr.drop 1).take ((selfInitArgs.drop supInitArgs.length).zip
        (args.drop supInitArgs.length)).length
      = ((selfInitArgs.drop supInitArgs.length).zip
          (args.drop supInitArgs.length)).map (fun p => Event.setattr p.1 p.2) ∧
    tr.getLast? = some (Event.callBody args kwargs) := by
  have h := runTrampoline_ok_inv hok
  subst h
  refine ⟨rfl, ?_, ?_⟩
  · show (((selfInitArgs.drop supInitArgs.length).zip
        (args.drop supInitArgs.length)).map (fun p => Event.setattr p.1 p.2)
        ++ kwargs.map (fun p => Event.setattr p.1 p.2)
        ++ [Event.callBody args kwargs]).take _ = _
    rw [List.append_assoc]
    exact List.take_left' (by simp)
  · rw [List.getLast?_append_cons]
    rfl

/-- C2 witness: a concrete invocation on a class with parent `init_args`
`['self']` and own `init_args` `['self', 'x']`. -/
theorem trampoline_forwarding_order_witness :
    ([Event.superInit [], Event.setattr "x" 20,
      Event.callBody [10, 20] []] : List (Event Nat)).head?
      = some (Event.superInit ((([10, 20] : List Nat).drop 1).take
          ((["self"] : List String).length - 1))) ∧
    (([Event.superInit [], Event.setattr "x" 20,
       Event.callBody [10, 20] []] : List (Event Nat)).drop 1).take
        (((["self", "x"].drop (["self"] : List String).length).zip
          (([10, 20] : List Nat).drop (["self"] : List String).length)).length)
      = ((["self", "x"].drop (["self"] : List String).length).zip
          (([10, 20] : List Nat).drop (["self"] : List String).length)).map
          (fun p => Event.setattr p.1 p.2) ∧
    ([Event.superInit [], Event.setattr "x" 20,
      Event.callBody [10, 20] []] : List (Event Nat)).getLast?
      = some (Event.callBody [10, 20] []) :=
  trampoline_forwarding_order ⟨["self", "x"], some "C"⟩ ["self"] ["self", "x"]
    [10, 20] [] [Event.superInit [], Event.setattr "x" 20, Event.callBody [10, 20] []]
    rfl

/-- C10: When the trampoline is invoked with keyword arguments, each one is
assigned to the instance via `setattr` under its own name — unconditionally,
whether or not that name occurs in `init_args` — after all the
positional-argument assignments and before the wrapped initializer body is
invoked with the same positional and keyword arguments. -/
theorem kwargs_setattr_own_name_before_body
    {V : Type} (t : Trampoline) (supInitArgs selfInitArgs : List String)
    (args : List V) (kwargs : List (String × V)) (tr : List (Event V))
    (hok : runTrampoline t supInitArgs selfInitArgs args kwargs = Except.ok tr) :
    tr = (Event.superInit ((args.drop 1).take (supInitArgs.length - 1))
          :: ((selfInitArgs.drop supInitArgs.length).zip
               (args.drop supInitArgs.length)).map (fun p => Event.setattr p.1 p.2))
         ++ kwargs.map (fun p => Event.setattr p.1 p.2)
         ++ [Event.callBody args kwargs] := by
  rw [runTrampoline_ok_inv hok]
  simp

/-- C10 witness: a concrete invocation with the keyword argument
`k = 5`, whose name is not in `init_args`. -/
theorem kwargs_setattr_own_name_before_body_witness :
    ([Event.superInit [], Event.setattr "z" 2, Event.setattr "k" 5,
      Event.callBody [1, 2] [("k", 5)]] : List (Event Nat))
      = (Event.superInit ((([1, 2] : List Nat).drop 1).take
            ((["self"] : List String).length - 1))
         :: ((["self", "z"].drop (["self"] : List String).length).zip
              (([1, 2] : List Nat).drop (["self"] : List String).length)).map
              (fun p => Event.setattr p.1 p.2))
        ++ [("k", (5 : Nat))].map (fun p => Event.setattr p.1 p.2)
        ++ [Event.callBody [1, 2] [("k", 5)]] :=
  kwargs_setattr_own_name_before_body ⟨["self", "z"], some "D"⟩ ["self"]
    ["self", "z"] [1, 2] [("k", 5)]
    [Event.superInit [], Event.setattr "z" 2, Event.setattr "k" 5,
     Event.callBody [1, 2] [("k", 5)]] rfl

/-- C3 counterexample: a plain `__init__(self, x=1)` — a signature with a
default value — is accepted by `SlotsMeta.__new__`, which checks `varargs`,
`varkw`, `kwonlydefaults`, `kwonlyargs` and `annotations` (lines 59-61) but
never `defaults`; so defining such an initializer does not fail at
class-definition time, contrary to the claim. -/
theorem plain_init_with_defaults_accepted :
    (⟨["self", "x"], none, none, ["1"], [], none, []⟩ : FullArgSpec).defaults ≠ [] ∧
    SlotsMetaNew "C" [⟨"Root", true, ["self"], [("Root", 0)]⟩]
        ⟨false,
         some (InitEntry.plain ⟨["self", "x"], none, none, ["1"], [], none, []⟩),
         []⟩
      = Except.ok ⟨"C", ["self", "x"], ["x"], none⟩ :=
  ⟨by decide, rfl⟩

/-- C3 (amended): an initializer with variadic parameters, keyword-only
parameters or annotations fails with an assertion at class-definition time
both when `SlotsMeta` introspects a plain `__init__` and when `auto_init`
is applied; default values fail only in the `auto_init` path (the plain
path never checks `defaults`). -/
theorem signature_shape_assertions
    (clsname : String) (bases : List BaseClass) (dct : ClassDict)
    (s f : FullArgSpec)
    (hinit : dct.init = some (InitEntry.plain s))
    (hbadS : s.varargs ≠ none ∨ s.varkw ≠ none ∨ s.kwonlydefaults ≠ none ∨
             s.kwonlyargs ≠ [] ∨ s.annotations ≠ [])
    (hbadF : f.varargs ≠ none ∨ f.varkw ≠ none ∨ f.kwonlydefaults ≠ none ∨
             f.defaults ≠ [] ∨ f.kwonlyargs ≠ [] ∨ f.annotations ≠ []) :
    isOk (SlotsMetaNew clsname bases dct) = false ∧ isOk (auto_init f) = false := by
  constructor
  · exact SlotsMetaNew_not_ok_of_bad_shape hinit (by tauto)
  · cases hr : auto_init f with
    | error _ => rfl
    | ok t =>
      obtain ⟨-, h1, h2, h3, h4, h5, h6⟩ := auto_init_ok_inv hr
      tauto

/-- C3 witness: a plain `__init__(self, *a)` is rejected by the metaclass,
and `auto_init` rejects `__init__(self, x=1)`. -/
theorem signature_shape_assertions_witness :
    isOk (SlotsMetaNew "C" [⟨"Root", true, ["self"], [("Root", 0)]⟩]
      ⟨false,
       some (InitEntry.plain ⟨["self"], some "a", none, [], [], none, []⟩),
       []⟩) = false ∧
    isOk (auto_init ⟨["self", "x"], none, none, ["1"], [], none, []⟩) = false :=
  signature_shape_assertions "C" [⟨"Root", true, ["self"], [("Root", 0)]⟩]
    ⟨false, some (InitEntry.plain ⟨["self"], some "a", none, [], [], none, []⟩), []⟩
    ⟨["self"], some "a", none, [], [], none, []⟩
    ⟨["self", "x"], none, none, ["1"], [], none, []⟩
    rfl (by decide) (by decide)

/-- C4: Creating a class with more than one base through `SlotsMeta`
succeeds only if, for every base after the first, every class in that
base's MRO has an `__init__` occurring among the `__init__` methods of the
classes in the first base's MRO; otherwise creation fails with an
assertion naming an offending class (the first one found). -/
theorem multiple_inheritance_linear
    (clsname : String) (b0 b1 : BaseClass) (rest : List BaseClass) (dct : ClassDict) :
    (isOk (SlotsMetaNew clsname (b0 :: b1 :: rest) dct) = true →
       ∀ b ∈ b1 :: rest, ∀ c ∈ b.mro, c.2 ∈ b0.mro.map Prod.snd) ∧
    ((¬ ∀ b ∈ b1 :: rest, ∀ c ∈ b.mro, c.2 ∈ b0.mro.map Prod.snd) →
       ∃ c : String × Nat, (∃ b ∈ b1 :: rest, c ∈ b.mro) ∧
         c.2 ∉ b0.mro.map Prod.snd ∧
         SlotsMetaNew clsname (b0 :: b1 :: rest) dct
           = Except.error ("AssertionError: " ++ c.1)) := by
  constructor
  · intro hok b hb c hc
    by_contra hnc
    have hsome : ((b1 :: rest).flatMap BaseClass.mro).find?
        (fun c => decide (c.2 ∉ b0.mro.map Prod.snd)) |>.isSome := by
      rw [List.find?_isSome]
      exact ⟨c, List.mem_flatMap.mpr ⟨b, hb, hc⟩,
        by simp only [decide_eq_true_eq]; exact hnc⟩
    obtain ⟨o, ho⟩ := Option.isSome_iff_exists.mp hsome
    have hfo : firstOffender (b0 :: b1 :: rest) = some o := ho
    unfold SlotsMetaNew at hok
    rw [hfo] at hok
    simp [isOk] at hok
  · intro hbad
    push_neg at hbad
    obtain ⟨b, hb, c, hc, hnc⟩ := hbad
    have hsome : ((b1 :: rest).flatMap BaseClass.mro).find?
        (fun c => decide (c.2 ∉ b0.mro.map Prod.snd)) |>.isSome := by
      rw [List.find?_isSome]
      exact ⟨c, List.mem_flatMap.mpr ⟨b, hb, hc⟩,
        by simp only [decide_eq_true_eq]; exact hnc⟩
    obtain ⟨o, ho⟩ := Option.isSome_iff_exists.mp hsome
    refine ⟨o, List.mem_flatMap.mp (List.mem_of_find?_eq_some ho), ?_, ?_⟩
    · simpa using List.find?_some ho
    · have hfo : firstOffender (b0 :: b1 :: rest) = some o := ho
      unfold SlotsMetaNew
      rw [hfo]

/-- C4 witness: class `B`'s MRO carries an `__init__` (identity 1) that is
not among the `__init__` methods of class `A`'s MRO, and class creation
from bases `(A, B)` fails with the assertion naming `B`. -/
theorem multiple_inheritance_linear_witness :
    ∃ c : String × Nat,
      (∃ b ∈ [(⟨"B", true, ["self"], [("B", 1)]⟩ : BaseClass)],
         c ∈ b.mro) ∧
      c.2 ∉ (⟨"A", true, ["self"], [("A", 0)]⟩ : BaseClass).mro.map Prod.snd ∧
      SlotsMetaNew "C"
          [⟨"A", true, ["self"], [("A", 0)]⟩, ⟨"B", true, ["self"], [("B", 1)]⟩]
          ⟨false, none, []⟩
        = Except.error ("AssertionError: " ++ c.1) :=
  (multiple_inheritance_linear "C" ⟨"A", true, ["self"], [("A", 0)]⟩
    ⟨"B", true, ["self"], [("B", 1)]⟩ [] ⟨false, none, []⟩).2 (by decide)

/-- C5: A function decorated with `auto_init` carries its positional
argument names as the attribute `auto_init_args`, and after the class
owning it is created through `SlotsMeta`, the trampoline carries that
newly created class as its attribute `cls`. -/
theorem auto_init_args_and_cls_attrs
    (f : FullArgSpec) (t : Trampoline) (clsname : String)
    (bases : List BaseClass) (dct : ClassDict) (nc : NewClass)
    (hai : auto_init f = Except.ok t)
    (hinit : dct.init = some (InitEntry.trampoline t))
    (hok : SlotsMetaNew clsname bases dct = Except.ok nc) :
    t.auto_init_args = f.args ∧
    nc.name = clsname ∧
    nc.trampoline = some { auto_init_args := f.args, cls := some clsname } := by
  obtain ⟨ht, -⟩ := auto_init_ok_inv hai
  have h := SlotsMetaNew_ok_inv hinit hok
  have htr : nc.trampoline
      = some { auto_init_args := t.auto_init_args, cls := some clsname } :=
    h.2.2.2.2
  exact ⟨by rw [ht], h.1, by rw [htr, ht]⟩

/-- C5 witness: `auto_init` applied to `__init__(self, a)`, the resulting
trampoline installed as the `__init__` of a concrete class `C(Root)`. -/
theorem auto_init_args_and_cls_attrs_witness :
    (⟨["self", "a"], none⟩ : Trampoline).auto_init_args
      = (⟨["self", "a"], none, none, [], [], none, []⟩ : FullArgSpec).args ∧
    (⟨"C", ["self", "a"], ["a"], some ⟨["self", "a"], some "C"⟩⟩ : NewClass).name
      = "C" ∧
    (⟨"C", ["self", "a"], ["a"], some ⟨["self", "a"], some "C"⟩⟩ : NewClass).trampoline
      = some { auto_init_args :=
                 (⟨["self", "a"], none, none, [], [], none, []⟩ : FullArgSpec).args,
               cls := some "C" } :=
  auto_init_args_and_cls_attrs ⟨["self", "a"], none, none, [], [], none, []⟩
    ⟨["self", "a"], none⟩ "C" [⟨"Root", true, ["self"], [("Root", 0)]⟩]
    ⟨false, some (InitEntry.trampoline ⟨["self", "a"], none⟩), []⟩
    ⟨"C", ["self", "a"], ["a"], some ⟨["self", "a"], some "C"⟩⟩ rfl rfl rfl

/-- C7 counterexample: the trampoline generated by `auto_init` is code of
the artifact, yet it executes at instance initialization — after the
classes have been defined — with observable effects: on a concrete
instance it performs a superclass call, a slot assignment and the call of
the wrapped body, not nothing. -/
theorem trampoline_executes_at_instance_time :
    runTrampoline (⟨["self", "v"], some "C"⟩ : Trampoline) ["self"] ["self", "v"]
        [(3 : Nat), 4] []
      = Except.ok [Event.superInit [], Event.setattr "v" 4,
                   Event.callBody [3, 4] []] ∧
    ([Event.superInit [], Event.setattr "v" (4 : Nat),
      Event.callBody [3, 4] []] : List (Event Nat)) ≠ [] :=
  ⟨rfl, by decide⟩

/-- C7 (amended): all metaclass and decorator processing happens
synchronously at class-definition time, but the trampoline generated by
`auto_init` is artifact code that runs later, at each instance
initialization; it can only run after its owning class has been created
through `SlotsMeta` — before the metaclass attaches `cls`, invoking it
fails the `hasattr(__init, 'cls')` assertion. -/
theorem trampoline_requires_created_class
    (V : Type) (t : Trampoline) (supInitArgs selfInitArgs : List String)
    (args : List V) (kwargs : List (String × V))
    (h : t.cls = none) :
    runTrampoline t supInitArgs selfInitArgs args kwargs
      = Except.error "AssertionError: auto_init only allowed in SlotsMeta classes" := by
  unfold runTrampoline
  rw [h]

/-- C7 witness: a trampoline whose class has not been created yet. -/
theorem trampoline_requires_created_class_witness :
    runTrampoline (⟨["self", "w"], none⟩ : Trampoline) ["self"] ["self", "w"]
        [(1 : Nat)] []
      = Except.error "AssertionError: auto_init only allowed in SlotsMeta classes" :=
  trampoline_requires_created_class Nat ⟨["self", "w"], none⟩ ["self"] ["self", "w"]
    [1] [] rfl

end SlotsMetaModel
